import Mathlib

/-
Verification of the quiz-generation core of the LLMOPS-3-TESTING-QA repository.

Shallow embedding of:
  * src/config/settings.py          (Settings, MAX_RETRIES)
  * src/models/question_schemas.py  (MCQQuestion, FillBlankQuestion)
  * src/generator/question_generator.py
        (QuestionGenerator._retry_and_parse, generate_mcq, generate_fill_blank)
  * src/utils/helpers.py
        (QuizManager.generate_questions, attempt_quiz, evaluate_quiz, save_to_csv)

Python exceptions are modelled by the inductive `Exc`; the model client
(`self.llm.invoke` followed by `parser.parse`, whose combined outcome is what one
loop iteration of `_retry_and_parse` observes) is modelled as a function from the
attempt index to `Except Exc α`.  File-system and clock effects of `save_to_csv`
are modelled by explicit parameters (the current time and a write-success flag)
and an explicit list of files written.
-/

/-- Python exceptions relevant to the generator, one constructor per raise site.
`generationFailedAfter n e` is `CustomException(f"Generation failed after {n} attempts", e)`
raised in `_retry_and_parse`; `mcqGenerationFailed e` is
`CustomException("MCQ question generation failed", e)` raised in `generate_mcq`;
`fbGenerationFailed e` is `CustomException("Fill-in-the-Blank question generation failed", e)`
raised in `generate_fill_blank`; `valueError` covers the `ValueError` raises of the
domain checks; `clientError` stands for any exception thrown by the model client or
the structural parser; `noneTypeError` stands for the `AttributeError`/`TypeError`
Python would raise when `_retry_and_parse` returns `None` (possible only when
`MAX_RETRIES = 0`). -/
inductive Exc : Type where
  | clientError (msg : String)
  | valueError (msg : String)
  | generationFailedAfter (attempts : Nat) (cause : Exc)
  | mcqGenerationFailed (cause : Exc)
  | fbGenerationFailed (cause : Exc)
  | noneTypeError
deriving DecidableEq, Repr

/-- `MCQQuestion` from src/models/question_schemas.py: question text, list of
options, and the correct answer.  (The `clean_question` pre-validator normalises
dict-shaped model output to a string before the object is built; an embedded
question object always holds the already-normalised string.) -/
structure MCQQuestion : Type where
  question : String
  options : List String
  correct_answer : String
deriving DecidableEq, Repr

/-- `FillBlankQuestion` from src/models/question_schemas.py. -/
structure FillBlankQuestion : Type where
  question : String
  answer : String
deriving DecidableEq, Repr

/-- `Settings` from src/config/settings.py (the fields the core logic reads;
`GROQ_API_KEY` is environment data and `TEMPERATURE` a model parameter, neither
is read by the code under verification). -/
structure Settings : Type where
  MODEL_NAME : String
  MAX_RETRIES : Nat
deriving DecidableEq, Repr

/-- The module-level `settings = Settings()` instance. -/
def settings : Settings :=
  { MODEL_NAME := "llama-3.1-8b-instant", MAX_RETRIES := 3 }

/-- The Python substring test `sub in s` on strings: some position of `s` starts
an occurrence of `sub`. -/
def containsSub (sub s : String) : Bool :=
  (List.range (s.data.length + 1)).any fun i => sub.data.isPrefixOf (s.data.drop i)

/-- Number of (possibly overlapping) start positions of `sub` in `s`; used to
state the blank-marker-exactly-once property of the specification. -/
def countOccs (sub s : String) : Nat :=
  (List.range (s.data.length + 1)).countP fun i => sub.data.isPrefixOf (s.data.drop i)

/-- The loop body of `QuestionGenerator._retry_and_parse`:
`for attempt in range(MAX_RETRIES)` with `rem` iterations remaining and current
index `i` (so `i + rem = mr` at the entry point).  One iteration invokes the
model and parses (`att i`); on success the parsed object is returned at once; on
an exception, if this was the last attempt (`attempt == MAX_RETRIES - 1`) a
`CustomException` wrapping the attempt count and the cause is raised, otherwise
the loop continues.  Falling off the loop (only possible when `mr = 0`) returns
the implicit Python `None`, modelled by the first component `none`.  The second
component counts how many times the client was invoked. -/
def retryGo {α : Type} (mr : Nat) (att : Nat → Except Exc α) :
    Nat → Nat → Option (Except Exc α) × Nat
  | 0, _ => (none, 0)
  | rem + 1, i =>
    match att i with
    | Except.ok parsed => (some (Except.ok parsed), 1)
    | Except.error e =>
      if i = mr - 1 then
        (some (Except.error (Exc.generationFailedAfter mr e)), 1)
      else
        let r := retryGo mr att rem (i + 1)
        (r.1, r.2 + 1)

/-- `QuestionGenerator._retry_and_parse` with retry budget `mr`:
run the loop from attempt index 0. -/
def retry_and_parse {α : Type} (mr : Nat) (att : Nat → Except Exc α) :
    Option (Except Exc α) × Nat :=
  retryGo mr att mr 0

/-- `QuestionGenerator.generate_mcq`: run `_retry_and_parse`, then the extra
domain check `len(question.options) != 4 or question.correct_answer not in
question.options`, raising `ValueError("Invalid MCQ structure")` if it fails;
any exception escaping the body is wrapped in
`CustomException("MCQ question generation failed", e)`.
Returns the outcome together with the number of client invocations. -/
def generate_mcq (mr : Nat) (att : Nat → Except Exc MCQQuestion) :
    Except Exc MCQQuestion × Nat :=
  match retry_and_parse mr att with
  | (some (Except.ok question), n) =>
    if question.options.length ≠ 4 ∨ question.correct_answer ∉ question.options then
      (Except.error (Exc.mcqGenerationFailed (Exc.valueError "Invalid MCQ structure")), n)
    else
      (Except.ok question, n)
  | (some (Except.error e), n) => (Except.error (Exc.mcqGenerationFailed e), n)
  | (none, n) => (Except.error (Exc.mcqGenerationFailed Exc.noneTypeError), n)

/-- `QuestionGenerator.generate_fill_blank`: run `_retry_and_parse`, then the
domain check `"_____" not in question.question`, raising
a `ValueError` whose message says the question must contain the quoted
blank marker (constructor argument written without the quotes) if it fails; any exception escaping the body
is wrapped in `CustomException("Fill-in-the-Blank question generation failed", e)`. -/
def generate_fill_blank (mr : Nat) (att : Nat → Except Exc FillBlankQuestion) :
    Except Exc FillBlankQuestion × Nat :=
  match retry_and_parse mr att with
  | (some (Except.ok question), n) =>
    if containsSub "_____" question.question = false then
      (Except.error (Exc.fbGenerationFailed
        (Exc.valueError "Fill-in-the-blank must contain _____")), n)
    else
      (Except.ok question, n)
  | (some (Except.error e), n) => (Except.error (Exc.fbGenerationFailed e), n)
  | (none, n) => (Except.error (Exc.fbGenerationFailed Exc.noneTypeError), n)

/-- One entry of `QuizManager.questions`: the dict built in `generate_questions`.
The Python dict key named type is the field `qtype` here ("MCQ" or
"Fill in the Blank"); a fill-blank dict has no `options` key, modelled by an
empty list (the key is never read for fill-blank questions). -/
structure QuestionRecord : Type where
  qtype : String
  question : String
  options : List String
  correct_answer : String
deriving DecidableEq, Repr

/-- One entry of `QuizManager.results`: the `result_dict` built in
`evaluate_quiz`. -/
structure ResultRecord : Type where
  question_number : Nat
  question : String
  question_type : String
  user_answer : String
  correct_answer : String
  is_correct : Bool
  options : List String
deriving DecidableEq, Repr

/-- The mutable state of a `QuizManager` instance: `self.questions`,
`self.user_answers`, `self.results`. -/
structure QuizState : Type where
  questions : List QuestionRecord
  user_answers : List String
  results : List ResultRecord
deriving DecidableEq, Repr

/-- The dict appended to `self.questions` for a generated MCQ. -/
def mcqRecord (q : MCQQuestion) : QuestionRecord :=
  { qtype := "MCQ", question := q.question,
    options := q.options, correct_answer := q.correct_answer }

/-- The dict appended to `self.questions` for a generated fill-blank question
(it has no options key; the answer is stored under correct_answer). -/
def fbRecord (q : FillBlankQuestion) : QuestionRecord :=
  { qtype := "Fill in the Blank", question := q.question,
    options := [], correct_answer := q.answer }

/-- The `for _ in range(num_questions)` loop of `QuizManager.generate_questions`,
with `rem` iterations remaining, `i` the index of the next generator call (the
i-th call outcome is `genMCQ i` / `genFB i`, modelling `generator.generate_mcq` /
`generator.generate_fill_blank`), and `acc` the question list built so far.
On an exception the method returns `False` with the list as accumulated. -/
def genLoop (question_type : String)
    (genMCQ : Nat → Except Exc MCQQuestion)
    (genFB : Nat → Except Exc FillBlankQuestion) :
    Nat → Nat → List QuestionRecord → List QuestionRecord × Bool
  | 0, _, acc => (acc, true)
  | rem + 1, i, acc =>
    if question_type = "Multiple Choice" then
      match genMCQ i with
      | Except.ok q =>
        genLoop question_type genMCQ genFB rem (i + 1) (acc ++ [mcqRecord q])
      | Except.error _ => (acc, false)
    else
      match genFB i with
      | Except.ok q =>
        genLoop question_type genMCQ genFB rem (i + 1) (acc ++ [fbRecord q])
      | Except.error _ => (acc, false)

/-- `QuizManager.generate_questions`: clear `questions`, `user_answers` and
`results`, then run the generation loop, catching any generation failure and
returning a success boolean.  Returns the new state and the boolean. -/
def generate_questions (s : QuizState) (question_type : String)
    (genMCQ : Nat → Except Exc MCQQuestion)
    (genFB : Nat → Except Exc FillBlankQuestion)
    (num_questions : Nat) : QuizState × Bool :=
  let s := { s with questions := [], user_answers := [], results := [] }
  let r := genLoop question_type genMCQ genFB num_questions 0 s.questions
  ({ s with questions := r.1 }, r.2)

/-- `QuizManager.attempt_quiz`: for each question index `i` in order, read the
current value of the answer widget keyed by `i` (`st.radio` for MCQ,
`st.text_input` for fill-blank, both modelled by `widgets i`) and append it to
`self.user_answers`. -/
def attempt_quiz (s : QuizState) (widgets : Nat → String) : QuizState :=
  { s with user_answers :=
      s.user_answers ++ (List.range s.questions.length).map widgets }

/-- The `result_dict` built for index `i` (0-based) in `evaluate_quiz`:
MCQ correctness is the exact string comparison of user_ans against the stored correct_answer;
fill-blank correctness is
comparison of the two after strip() and lower(). -/
def mkResult (i : Nat) (q : QuestionRecord) (user_ans : String) : ResultRecord :=
  if q.qtype = "MCQ" then
    { question_number := i + 1, question := q.question, question_type := q.qtype,
      user_answer := user_ans, correct_answer := q.correct_answer,
      is_correct := user_ans == q.correct_answer, options := q.options }
  else
    { question_number := i + 1, question := q.question, question_type := q.qtype,
      user_answer := user_ans, correct_answer := q.correct_answer,
      is_correct := user_ans.trim.toLower == q.correct_answer.trim.toLower,
      options := [] }

/-- The `for i, (q, user_ans) in enumerate(zip(self.questions, self.user_answers))`
loop of `evaluate_quiz`, with `i` the current index: `zip` stops at the shorter
of the two lists. -/
def evalLoop : Nat → List QuestionRecord → List String → List ResultRecord
  | _, [], _ => []
  | _, _ :: _, [] => []
  | i, q :: qs, a :: rest => mkResult i q a :: evalLoop (i + 1) qs rest

/-- `QuizManager.evaluate_quiz`: reset `self.results = []`, then fill it from the
positional pairing of questions and user answers. -/
def evaluate_quiz (s : QuizState) : QuizState :=
  { s with results := evalLoop 0 s.questions s.user_answers }

/-- A wall-clock instant, standing for `datetime.now()`. -/
structure DateTime : Type where
  year : Nat
  month : Nat
  day : Nat
  hour : Nat
  minute : Nat
  second : Nat
deriving DecidableEq, Repr

/-- Zero-pad a number to two digits, as `strftime` does for `%m %d %H %M %S`. -/
def pad2 (n : Nat) : String :=
  if n < 10 then "0" ++ toString n else toString n

/-- Zero-pad a number to four digits, as `strftime` does for `%Y`. -/
def pad4 (n : Nat) : String :=
  if n < 10 then "000" ++ toString n
  else if n < 100 then "00" ++ toString n
  else if n < 1000 then "0" ++ toString n
  else toString n

/-- `datetime.now().strftime("%Y%m%d_%H%M%S")`. -/
def fmtTimestamp (now : DateTime) : String :=
  pad4 now.year ++ pad2 now.month ++ pad2 now.day ++ "_" ++
    pad2 now.hour ++ pad2 now.minute ++ pad2 now.second

/-- `QuizManager.save_to_csv` (default filename_prefix is quiz_results): with empty
`results`, warn and return `None` writing nothing; otherwise build
`results/<prefix>_<timestamp>.csv` (the makedirs call with exist_ok set makes
directory creation idempotent), attempt the CSV write — modelled by the `writeOk`
flag since `df.to_csv` is an I/O effect — and return the path on success or
`None` on an I/O error.  The second component lists the files written. -/
def save_to_csv (s : QuizState) ( pfx : String) (now : DateTime)
    (writeOk : Bool) : Option String × List String :=
  if s.results.isEmpty then
    (none, [])
  else
    let timestamp := fmtTimestamp now
    let unique_filename := pfx ++ "_" ++ timestamp ++ ".csv"
    let full_path := "results/" ++ unique_filename
    if writeOk then (some full_path, [full_path]) else (none, [])

/-! ## Helper lemmas about the retry loop -/

/-- A deterministic model client that fails on each of the first `k` attempts
(attempt `i` raising `errs i`) and succeeds from attempt `k` on, producing `q`.
This is the client shape quantified over in the retry-bound property. -/
def detClient {α : Type} (k : Nat) (errs : Nat → Exc) (q : α) :
    Nat → Except Exc α :=
  fun i => if i < k then Except.error (errs i) else Except.ok q

/-- If the first `d` attempts starting at index `i` fail and attempt `i + d`
succeeds within the remaining budget, the loop returns the parsed object after
exactly `d + 1` invocations. -/
theorem retryGo_success {α : Type} (mr : Nat) (att : Nat → Except Exc α)
    (q : α) (errs : Nat → Exc) :
    ∀ (d rem i : Nat), i + rem = mr → d < rem →
      (∀ j, j < d → att (i + j) = Except.error (errs (i + j))) →
      att (i + d) = Except.ok q →
      retryGo mr att rem i = (some (Except.ok q), d + 1) := by
  intro d
  induction d with
  | zero =>
    intro rem i hinv hd hfail hok
    match rem, hd with
    | rem + 1, _ =>
      rw [show i + 0 = i from rfl] at hok
      simp only [retryGo, hok]
  | succ d ih =>
    intro rem i hinv hd hfail hok
    match rem, hd with
    | rem + 1, hd =>
      have h0 : att i = Except.error (errs i) := by
        have h := hfail 0 (Nat.succ_pos d)
        rwa [show i + 0 = i from rfl] at h
      have hrem : 0 < rem := by omega
      have hne : i ≠ mr - 1 := by omega
      have hrec := ih rem (i + 1) (by omega) (by omega)
        (fun j hj => by
          have h := hfail (j + 1) (by omega)
          rwa [show i + (j + 1) = i + 1 + j from by omega] at h)
        (by rwa [show i + (d + 1) = i + 1 + d from by omega] at hok)
      simp only [retryGo, h0, if_neg hne, hrec]

/-- If every attempt in the remaining budget fails, the loop raises the
exhausted-retry exception wrapping the retry budget and the error of the last
attempt, after exactly `rem` further invocations. -/
theorem retryGo_exhaust {α : Type} (mr : Nat) (att : Nat → Except Exc α)
    (errs : Nat → Exc) :
    ∀ (rem i : Nat), i + rem = mr → 0 < rem →
      (∀ j, j < rem → att (i + j) = Except.error (errs (i + j))) →
      retryGo mr att rem i =
        (some (Except.error (Exc.generationFailedAfter mr (errs (mr - 1)))), rem) := by
  intro rem
  induction rem with
  | zero => intro i _ h0; omega
  | succ rem ih =>
    intro i hinv _ hfail
    have h0 : att i = Except.error (errs i) := by
      have h := hfail 0 (by omega)
      rwa [show i + 0 = i from rfl] at h
    by_cases hlast : rem = 0
    · subst hlast
      have hi : i = mr - 1 := by omega
      subst hi
      simp [retryGo, h0]
    · have hne : i ≠ mr - 1 := by omega
      have hrec := ih (i + 1) (by omega) (by omega)
        (fun j hj => by
          have h := hfail (j + 1) (by omega)
          rwa [show i + (j + 1) = i + 1 + j from by omega] at h)
      simp only [retryGo, h0, if_neg hne, hrec]

/-- `_retry_and_parse` on a client that fails `k` times then succeeds, when the
success happens within the budget. -/
theorem retry_and_parse_detClient_ok {α : Type} (mr k : Nat) (errs : Nat → Exc)
    (q : α) (hk : k < mr) :
    retry_and_parse mr (detClient k errs q) = (some (Except.ok q), k + 1) := by
  unfold retry_and_parse
  exact retryGo_success mr (detClient k errs q) q errs k mr 0 (by omega) hk
    (fun j hj => by
      simp only [detClient, Nat.zero_add]
      rw [if_pos hj])
    (by
      simp only [detClient, Nat.zero_add]
      rw [if_neg (by omega)])

/-- `_retry_and_parse` on a client that fails `k ≥ mr` times: the budget is
exhausted after exactly `mr` invocations. -/
theorem retry_and_parse_detClient_exhaust {α : Type} (mr k : Nat)
    (errs : Nat → Exc) (q : α) (hmr : 0 < mr) (hk : mr ≤ k) :
    retry_and_parse mr (detClient k errs q) =
      (some (Except.error (Exc.generationFailedAfter mr (errs (mr - 1)))), mr) := by
  unfold retry_and_parse
  exact retryGo_exhaust mr (detClient k errs q) errs mr 0 (by omega) hmr
    (fun j hj => by
      simp only [detClient, Nat.zero_add]
      rw [if_pos (by omega)])

/-! ## Concrete questions used in witnesses and counterexamples -/

/-- A domain-valid MCQ (the Geography scenario of the specification). -/
def mcqParis : MCQQuestion :=
  { question := "Capital of France?",
    options := ["Paris", "Rome", "Berlin", "Madrid"],
    correct_answer := "Paris" }

/-- A structurally parsed but domain-invalid MCQ (one option, stray answer). -/
def mcqBad : MCQQuestion :=
  { question := "q", options := ["a"], correct_answer := "z" }

/-- A domain-valid fill-blank question. -/
def fbParis : FillBlankQuestion :=
  { question := "The capital of France is _____", answer := "Paris" }

/-- A structurally parsed fill-blank question without a blank marker. -/
def fbNoBlank : FillBlankQuestion :=
  { question := "no blank here", answer := "y" }

/-- A fill-blank question whose text contains the blank marker twice. -/
def fbTwoBlanks : FillBlankQuestion :=
  { question := "a _____ b _____ c", answer := "x" }

/-! ## C1: retry bound of generate_mcq -/

/-- C1: for a model client that fails deterministically `k` times and then
succeeds with a domain-valid question, `generate_mcq` (via `_retry_and_parse`
with retry budget `settings.MAX_RETRIES`) succeeds iff `k < MAX_RETRIES`, fails
with the exhausted-retry error wrapping the last underlying error and the
attempt count iff `k ≥ MAX_RETRIES`, and invokes the client exactly
`min (k + 1) MAX_RETRIES` times. -/
theorem generate_mcq_retry_bound (k : Nat) (errs : Nat → Exc) (q : MCQQuestion)
    (hval : q.options.length = 4 ∧ q.correct_answer ∈ q.options) :
    ((generate_mcq settings.MAX_RETRIES (detClient k errs q)).1 = Except.ok q ↔
        k < settings.MAX_RETRIES) ∧
    ((generate_mcq settings.MAX_RETRIES (detClient k errs q)).1 =
        Except.error (Exc.mcqGenerationFailed
          (Exc.generationFailedAfter settings.MAX_RETRIES
            (errs (settings.MAX_RETRIES - 1)))) ↔
        settings.MAX_RETRIES ≤ k) ∧
    (generate_mcq settings.MAX_RETRIES (detClient k errs q)).2 =
      min (k + 1) settings.MAX_RETRIES := by
  by_cases hk : k < settings.MAX_RETRIES
  · have hrp := retry_and_parse_detClient_ok settings.MAX_RETRIES k errs q hk
    have hcond : ¬(q.options.length ≠ 4 ∨ q.correct_answer ∉ q.options) := by
      push_neg
      exact hval
    have hg : generate_mcq settings.MAX_RETRIES (detClient k errs q) =
        (Except.ok q, k + 1) := by
      unfold generate_mcq
      rw [hrp]
      dsimp only
      rw [if_neg hcond]
    rw [hg]
    refine ⟨by simpa using hk, ⟨fun h => by simp at h, fun h => absurd h (by omega)⟩,
      by omega⟩
  · have hrp := retry_and_parse_detClient_exhaust settings.MAX_RETRIES k errs q
      (by decide) (by omega)
    have hg : generate_mcq settings.MAX_RETRIES (detClient k errs q) =
        (Except.error (Exc.mcqGenerationFailed
          (Exc.generationFailedAfter settings.MAX_RETRIES
            (errs (settings.MAX_RETRIES - 1)))), settings.MAX_RETRIES) := by
      unfold generate_mcq
      rw [hrp]
    rw [hg]
    refine ⟨⟨fun h => by simp at h, fun h => absurd h hk⟩, by simp; omega, by omega⟩

/-- Witness for C1 at `k = 1` with a concrete client and question. -/
theorem generate_mcq_retry_bound_witness :
    ((generate_mcq settings.MAX_RETRIES
        (detClient 1 (fun _ => Exc.clientError "boom") mcqParis)).1 =
          Except.ok mcqParis ↔ 1 < settings.MAX_RETRIES) ∧
    ((generate_mcq settings.MAX_RETRIES
        (detClient 1 (fun _ => Exc.clientError "boom") mcqParis)).1 =
        Except.error (Exc.mcqGenerationFailed
          (Exc.generationFailedAfter settings.MAX_RETRIES
            (Exc.clientError "boom"))) ↔
        settings.MAX_RETRIES ≤ 1) ∧
    (generate_mcq settings.MAX_RETRIES
        (detClient 1 (fun _ => Exc.clientError "boom") mcqParis)).2 =
      min (1 + 1) settings.MAX_RETRIES :=
  generate_mcq_retry_bound 1 (fun _ => Exc.clientError "boom") mcqParis (by decide)

/-! ## C2: MCQ domain invariant -/

/-- C2: every question returned successfully by `generate_mcq` has exactly 4
options with the correct answer among them, and on every structurally parsed
output violating this the call fails (with the domain-validation error) rather
than returning it. -/
theorem generate_mcq_output_valid (mr : Nat) (att : Nat → Except Exc MCQQuestion) :
    (∀ q n, generate_mcq mr att = (Except.ok q, n) →
      q.options.length = 4 ∧ q.correct_answer ∈ q.options) ∧
    (∀ q n, retry_and_parse mr att = (some (Except.ok q), n) →
      ¬(q.options.length = 4 ∧ q.correct_answer ∈ q.options) →
      (generate_mcq mr att).1 =
        Except.error (Exc.mcqGenerationFailed
          (Exc.valueError "Invalid MCQ structure"))) := by
  constructor
  · intro q n h
    unfold generate_mcq at h
    rcases hr : retry_and_parse mr att with ⟨o, m⟩
    rw [hr] at h
    rcases o with _ | v
    · simp at h
    · rcases v with e | q'
      · simp at h
      · dsimp only at h
        by_cases hc : q'.options.length ≠ 4 ∨ q'.correct_answer ∉ q'.options
        · rw [if_pos hc] at h
          simp at h
        · rw [if_neg hc] at h
          push_neg at hc
          simp only [Prod.mk.injEq, Except.ok.injEq] at h
          obtain ⟨hq, -⟩ := h
          subst hq
          exact hc
  · intro q n hr hbad
    have hc : q.options.length ≠ 4 ∨ q.correct_answer ∉ q.options := by
      by_cases h4 : q.options.length = 4
      · right
        intro hmem
        exact hbad ⟨h4, hmem⟩
      · left
        exact h4
    unfold generate_mcq
    rw [hr]
    dsimp only
    rw [if_pos hc]

/-- Witness for C2 on a client that immediately returns a valid MCQ. -/
theorem generate_mcq_output_valid_witness :
    mcqParis.options.length = 4 ∧ mcqParis.correct_answer ∈ mcqParis.options :=
  (generate_mcq_output_valid 3 (fun _ => Except.ok mcqParis)).1 mcqParis 1 (by rfl)

/-! ## C3: fill-blank marker invariant -/

/-- C3 counterexample: `generate_fill_blank` returns a question whose text
contains the blank marker twice, so the marker does not occur exactly once in
every successfully returned question — the code only checks presence. -/
theorem fill_blank_exactly_once_counterexample :
    (generate_fill_blank settings.MAX_RETRIES (fun _ => Except.ok fbTwoBlanks)).1 =
      Except.ok fbTwoBlanks ∧
    countOccs "_____" fbTwoBlanks.question = 2 ∧
    countOccs "_____" fbTwoBlanks.question ≠ 1 := by
  refine ⟨by rfl, by decide, by decide⟩

/-- C3 amended: every question returned successfully by `generate_fill_blank`
contains the substring of five underscores at least once, and on every
structurally parsed output lacking it the call fails (with the
domain-validation error) rather than returning it. -/
theorem generate_fill_blank_marker_present (mr : Nat)
    (att : Nat → Except Exc FillBlankQuestion) :
    (∀ q n, generate_fill_blank mr att = (Except.ok q, n) →
      containsSub "_____" q.question = true) ∧
    (∀ q n, retry_and_parse mr att = (some (Except.ok q), n) →
      containsSub "_____" q.question = false →
      (generate_fill_blank mr att).1 =
        Except.error (Exc.fbGenerationFailed
          (Exc.valueError "Fill-in-the-blank must contain _____"))) := by
  constructor
  · intro q n h
    unfold generate_fill_blank at h
    rcases hr : retry_and_parse mr att with ⟨o, m⟩
    rw [hr] at h
    rcases o with _ | v
    · simp at h
    · rcases v with e | q'
      · simp at h
      · dsimp only at h
        by_cases hc : containsSub "_____" q'.question = false
        · rw [if_pos hc] at h
          simp at h
        · rw [if_neg hc] at h
          simp only [Prod.mk.injEq, Except.ok.injEq] at h
          obtain ⟨hq, -⟩ := h
          subst hq
          exact eq_true_of_ne_false hc
  · intro q n hr hbad
    unfold generate_fill_blank
    rw [hr]
    dsimp only
    rw [if_pos hbad]

/-- Witness for the amended C3 on a client that immediately returns a valid
fill-blank question. -/
theorem generate_fill_blank_marker_present_witness :
    containsSub "_____" fbParis.question = true :=
  (generate_fill_blank_marker_present 3 (fun _ => Except.ok fbParis)).1 fbParis 1 (by rfl)

/-! ## C6: domain validation is a distinct, unretried failure -/

/-- C6: when an attempt parses structurally (attempt index `f`, after `f`
failures) but the type-specific domain check fails, `generate_mcq` and
`generate_fill_blank` fail immediately with the validation error — a different
exception than the exhausted-retry one — and the client has been invoked
exactly `f + 1` times, i.e. never again after the structural success. -/
theorem domain_check_not_retried (f : Nat) (hf : f < settings.MAX_RETRIES)
    (errsM errsF : Nat → Exc) (qm : MCQQuestion) (qf : FillBlankQuestion)
    (hbadM : ¬(qm.options.length = 4 ∧ qm.correct_answer ∈ qm.options))
    (hbadF : containsSub "_____" qf.question = false) :
    generate_mcq settings.MAX_RETRIES (detClient f errsM qm) =
      (Except.error (Exc.mcqGenerationFailed
        (Exc.valueError "Invalid MCQ structure")), f + 1) ∧
    generate_fill_blank settings.MAX_RETRIES (detClient f errsF qf) =
      (Except.error (Exc.fbGenerationFailed
        (Exc.valueError "Fill-in-the-blank must contain _____")), f + 1) ∧
    (∀ n e, Exc.valueError "Invalid MCQ structure" ≠
      Exc.generationFailedAfter n e) ∧
    (∀ n e, Exc.valueError "Fill-in-the-blank must contain _____" ≠
      Exc.generationFailedAfter n e) := by
  have hcM : qm.options.length ≠ 4 ∨ qm.correct_answer ∉ qm.options := by
    by_cases h4 : qm.options.length = 4
    · right
      intro hmem
      exact hbadM ⟨h4, hmem⟩
    · left
      exact h4
  refine ⟨?_, ?_, fun n e h => Exc.noConfusion h, fun n e h => Exc.noConfusion h⟩
  · have hrp := retry_and_parse_detClient_ok settings.MAX_RETRIES f errsM qm hf
    unfold generate_mcq
    rw [hrp]
    dsimp only
    rw [if_pos hcM]
  · have hrp := retry_and_parse_detClient_ok settings.MAX_RETRIES f errsF qf hf
    unfold generate_fill_blank
    rw [hrp]
    dsimp only
    rw [if_pos hbadF]

/-- Witness for C6: one transient failure, then a structurally parsed but
domain-invalid output of each type. -/
theorem domain_check_not_retried_witness :
    generate_mcq settings.MAX_RETRIES
        (detClient 1 (fun _ => Exc.clientError "e") mcqBad) =
      (Except.error (Exc.mcqGenerationFailed
        (Exc.valueError "Invalid MCQ structure")), 1 + 1) ∧
    generate_fill_blank settings.MAX_RETRIES
        (detClient 1 (fun _ => Exc.clientError "e") fbNoBlank) =
      (Except.error (Exc.fbGenerationFailed
        (Exc.valueError "Fill-in-the-blank must contain _____")), 1 + 1) ∧
    (∀ n e, Exc.valueError "Invalid MCQ structure" ≠
      Exc.generationFailedAfter n e) ∧
    (∀ n e, Exc.valueError "Fill-in-the-blank must contain _____" ≠
      Exc.generationFailedAfter n e) :=
  domain_check_not_retried 1 (by decide) (fun _ => Exc.clientError "e")
    (fun _ => Exc.clientError "e") mcqBad fbNoBlank (by decide) (by decide)

/-! ## Helper lemmas about the quiz manager loops -/

/-- Elementwise description of the evaluation loop: index `i` of the result
list is the result record built from the `i`-th question and the `i`-th user
answer, numbered from the loop counter `n`. -/
theorem evalLoop_getElem :
    ∀ (n : Nat) (qs : List QuestionRecord) (ua : List String) (i : Nat)
      (q : QuestionRecord) (a : String),
      qs[i]? = some q → ua[i]? = some a →
      (evalLoop n qs ua)[i]? = some (mkResult (n + i) q a) := by
  intro n qs
  induction qs generalizing n with
  | nil => intro ua i q a hq ha; simp at hq
  | cons q0 qs ih =>
    intro ua i q a hq ha
    cases ua with
    | nil => simp at ha
    | cons a0 rest =>
      cases i with
      | zero =>
        simp only [List.getElem?_cons_zero, Option.some.injEq] at hq ha
        subst hq
        subst ha
        simp [evalLoop]
      | succ i =>
        simp only [List.getElem?_cons_succ] at hq ha
        simp only [evalLoop, List.getElem?_cons_succ]
        rw [ih (n + 1) rest i q a hq ha]
        congr 1
        rw [show n + 1 + i = n + (i + 1) from by omega]

/-- The evaluation loop pairs positionally, producing as many results as the
shorter of the two lists. -/
theorem evalLoop_length :
    ∀ (n : Nat) (qs : List QuestionRecord) (ua : List String),
      (evalLoop n qs ua).length = min qs.length ua.length := by
  intro n qs
  induction qs generalizing n with
  | nil => intro ua; simp [evalLoop]
  | cons q0 qs ih =>
    intro ua
    cases ua with
    | nil => simp [evalLoop]
    | cons a0 rest =>
      simp only [evalLoop, List.length_cons, ih (n + 1) rest]
      omega

/-! ## C4: evaluation correctness -/

/-- C4: for equal-length question and answer lists, `evaluate_quiz` pairs them
positionally; an MCQ result is correct iff the user answer equals the stored
correct answer by exact, case-sensitive comparison, and a non-MCQ (fill-blank)
result is correct iff the trimmed, lower-cased strings are equal. -/
theorem evaluate_quiz_pairing (s : QuizState)
    (hlen : s.user_answers.length = s.questions.length)
    (i : Nat) (hi : i < s.questions.length) :
    ∃ q a r,
      s.questions[i]? = some q ∧
      s.user_answers[i]? = some a ∧
      (evaluate_quiz s).results[i]? = some r ∧
      r.question_number = i + 1 ∧
      r.user_answer = a ∧
      r.correct_answer = q.correct_answer ∧
      (q.qtype = "MCQ" → (r.is_correct = true ↔ a = q.correct_answer)) ∧
      (q.qtype ≠ "MCQ" → (r.is_correct = true ↔
        a.trim.toLower = q.correct_answer.trim.toLower)) := by
  have ha : i < s.user_answers.length := by omega
  refine ⟨s.questions[i], s.user_answers[i],
    mkResult i s.questions[i] s.user_answers[i],
    List.getElem?_eq_getElem hi, List.getElem?_eq_getElem ha, ?_, ?_, ?_, ?_, ?_, ?_⟩
  · have h := evalLoop_getElem 0 s.questions s.user_answers i
      s.questions[i] s.user_answers[i]
      (List.getElem?_eq_getElem hi) (List.getElem?_eq_getElem ha)
    simpa [evaluate_quiz] using h
  · unfold mkResult
    split <;> rfl
  · unfold mkResult
    split <;> rfl
  · unfold mkResult
    split <;> rfl
  · intro hmcq
    unfold mkResult
    rw [if_pos hmcq]
    exact beq_iff_eq
  · intro hfb
    unfold mkResult
    rw [if_neg hfb]
    exact beq_iff_eq

/-- A one-question fill-blank session answered with surrounding whitespace and
different capitalisation, used as the C4 witness. -/
def sessionFB : QuizState :=
  { questions := [fbRecord fbParis], user_answers := [" PARIS "], results := [] }

/-- Witness for C4 on the fill-blank scenario of the specification. -/
theorem evaluate_quiz_pairing_witness :
    ∃ q a r,
      sessionFB.questions[0]? = some q ∧
      sessionFB.user_answers[0]? = some a ∧
      (evaluate_quiz sessionFB).results[0]? = some r ∧
      r.question_number = 0 + 1 ∧
      r.user_answer = a ∧
      r.correct_answer = q.correct_answer ∧
      (q.qtype = "MCQ" → (r.is_correct = true ↔ a = q.correct_answer)) ∧
      (q.qtype ≠ "MCQ" → (r.is_correct = true ↔
        a.trim.toLower = q.correct_answer.trim.toLower)) :=
  evaluate_quiz_pairing sessionFB (by rfl) 0 (by decide)

/-! ## C10: evaluation with fewer answers than questions -/

/-- C10: `evaluate_quiz` never fails on a length mismatch; it replaces any
previous results (independently of what they were) with exactly
`min len(questions) len(user_answers)` positionally paired results, silently
dropping unanswered trailing questions, and leaves the other two sequences
untouched. -/
theorem evaluate_quiz_truncates (s : QuizState) :
    (evaluate_quiz s).results.length =
      min s.questions.length s.user_answers.length ∧
    (∀ r0 : List ResultRecord,
      (evaluate_quiz { s with results := r0 }).results =
        (evaluate_quiz s).results) ∧
    (evaluate_quiz s).questions = s.questions ∧
    (evaluate_quiz s).user_answers = s.user_answers := by
  refine ⟨?_, fun r0 => rfl, rfl, rfl⟩
  simpa [evaluate_quiz] using evalLoop_length 0 s.questions s.user_answers

/-- If the first `d` MCQ generator calls starting at index `i` succeed and the
call at `i + d` fails, the generation loop stops with `false`, keeping exactly
the records of the successful calls appended to the accumulator. -/
theorem genLoop_mcq_fail (genMCQ : Nat → Except Exc MCQQuestion)
    (genFB : Nat → Except Exc FillBlankQuestion)
    (qsM : Nat → MCQQuestion) (e : Exc) :
    ∀ (d rem i : Nat) (acc : List QuestionRecord), d < rem →
      (∀ j, j < d → genMCQ (i + j) = Except.ok (qsM (i + j))) →
      genMCQ (i + d) = Except.error e →
      genLoop "Multiple Choice" genMCQ genFB rem i acc =
        (acc ++ (List.range d).map (fun j => mcqRecord (qsM (i + j))), false) := by
  intro d
  induction d with
  | zero =>
    intro rem i acc hd hok herr
    match rem, hd with
    | rem + 1, _ =>
      rw [show i + 0 = i from rfl] at herr
      simp [genLoop, herr]
  | succ d ih =>
    intro rem i acc hd hok herr
    match rem, hd with
    | rem + 1, hd =>
      have h0 : genMCQ i = Except.ok (qsM i) := by
        have h := hok 0 (Nat.succ_pos d)
        rwa [show i + 0 = i from rfl] at h
      have hrec := ih rem (i + 1) (acc ++ [mcqRecord (qsM i)]) (by omega)
        (fun j hj => by
          have h := hok (j + 1) (by omega)
          rwa [show i + (j + 1) = i + 1 + j from by omega] at h)
        (by rwa [show i + (d + 1) = i + 1 + d from by omega] at herr)
      simp only [genLoop, if_pos rfl, h0, hrec]
      rw [List.range_succ_eq_map]
      simp [List.map_map, Function.comp_def, Nat.add_assoc, Nat.add_comm 1]

/-- Fill-blank analogue of `genLoop_mcq_fail` (the loop takes the non-MCQ
branch for the question type used by the application). -/
theorem genLoop_fb_fail (genMCQ : Nat → Except Exc MCQQuestion)
    (genFB : Nat → Except Exc FillBlankQuestion)
    (qsF : Nat → FillBlankQuestion) (e : Exc) :
    ∀ (d rem i : Nat) (acc : List QuestionRecord), d < rem →
      (∀ j, j < d → genFB (i + j) = Except.ok (qsF (i + j))) →
      genFB (i + d) = Except.error e →
      genLoop "Fill in the Blank" genMCQ genFB rem i acc =
        (acc ++ (List.range d).map (fun j => fbRecord (qsF (i + j))), false) := by
  intro d
  induction d with
  | zero =>
    intro rem i acc hd hok herr
    match rem, hd with
    | rem + 1, _ =>
      rw [show i + 0 = i from rfl] at herr
      simp [genLoop, herr]
  | succ d ih =>
    intro rem i acc hd hok herr
    match rem, hd with
    | rem + 1, hd =>
      have h0 : genFB i = Except.ok (qsF i) := by
        have h := hok 0 (Nat.succ_pos d)
        rwa [show i + 0 = i from rfl] at h
      have hrec := ih rem (i + 1) (acc ++ [fbRecord (qsF i)]) (by omega)
        (fun j hj => by
          have h := hok (j + 1) (by omega)
          rwa [show i + (j + 1) = i + 1 + j from by omega] at h)
        (by rwa [show i + (d + 1) = i + 1 + d from by omega] at herr)
      simp only [genLoop, h0, hrec]
      rw [if_neg (by decide)]
      rw [List.range_succ_eq_map]
      simp [List.map_map, Function.comp_def, Nat.add_assoc, Nat.add_comm 1]

/-! ## C5: a failing batch returns false and keeps the partial list -/

/-- C5: when the generator call at (0-based) index `f` fails after `f`
successful calls, `generate_questions` returns `false` and the session then
holds exactly the `f` question records generated before the failure (the
partial list is retained in state, not cleared), with empty answers and
results; stated for both question types. -/
theorem generate_questions_partial_list (s : QuizState) (num f : Nat)
    (hf : f < num)
    (genMCQ : Nat → Except Exc MCQQuestion)
    (genFB : Nat → Except Exc FillBlankQuestion)
    (qsM : Nat → MCQQuestion) (qsF : Nat → FillBlankQuestion) (eM eF : Exc) :
    ((∀ j, j < f → genMCQ j = Except.ok (qsM j)) →
      genMCQ f = Except.error eM →
      generate_questions s "Multiple Choice" genMCQ genFB num =
        ({ questions := (List.range f).map (fun j => mcqRecord (qsM j)),
           user_answers := [], results := [] }, false)) ∧
    ((∀ j, j < f → genFB j = Except.ok (qsF j)) →
      genFB f = Except.error eF →
      generate_questions s "Fill in the Blank" genMCQ genFB num =
        ({ questions := (List.range f).map (fun j => fbRecord (qsF j)),
           user_answers := [], results := [] }, false)) := by
  constructor
  · intro hok herr
    have h := genLoop_mcq_fail genMCQ genFB qsM eM f num 0 [] hf
      (fun j hj => by simpa using hok j hj) (by simpa using herr)
    unfold generate_questions
    dsimp only
    rw [h]
    simp
  · intro hok herr
    have h := genLoop_fb_fail genMCQ genFB qsF eF f num 0 [] hf
      (fun j hj => by simpa using hok j hj) (by simpa using herr)
    unfold generate_questions
    dsimp only
    rw [h]
    simp

/-- A generator whose first MCQ call succeeds and whose second fails, used in
the C5 witness. -/
def gMfail : Nat → Except Exc MCQQuestion :=
  fun i => if i < 1 then Except.ok mcqParis else Except.error (Exc.clientError "down")

/-- Witness for C5: two requested questions, failure on the second call. -/
theorem generate_questions_partial_list_witness :
    generate_questions { questions := [], user_answers := [], results := [] }
        "Multiple Choice" gMfail (fun _ => Except.ok fbParis) 2 =
      ({ questions := (List.range 1).map (fun _ => mcqRecord mcqParis),
         user_answers := [], results := [] }, false) :=
  (generate_questions_partial_list
      { questions := [], user_answers := [], results := [] } 2 1 (by omega)
      gMfail (fun _ => Except.ok fbParis) (fun _ => mcqParis) (fun _ => fbParis)
      (Exc.clientError "down") (Exc.clientError "down")).1
    (fun j hj => by
      have hj0 : j = 0 := by omega
      subst hj0
      rfl)
    (by rfl)

/-! ## C7: every generate_questions call clears the whole session -/

/-- C7: `generate_questions` clears all three session sequences before
generating, so its outcome does not depend on the prior state at all — two
calls with the same arguments from any two prior states (including those left
by an earlier successful or failed call) agree — and the answers and results of
the new state are empty. -/
theorem generate_questions_resets (s1 s2 : QuizState) (question_type : String)
    (genMCQ : Nat → Except Exc MCQQuestion)
    (genFB : Nat → Except Exc FillBlankQuestion) (num : Nat) :
    generate_questions s1 question_type genMCQ genFB num =
      generate_questions s2 question_type genMCQ genFB num ∧
    (generate_questions s1 question_type genMCQ genFB num).1.user_answers = [] ∧
    (generate_questions s1 question_type genMCQ genFB num).1.results = [] := by
  cases s1
  cases s2
  exact ⟨rfl, rfl, rfl⟩

/-! ## C8: attempt_quiz appends, and is not idempotent -/

/-- Repeated `attempt_quiz` calls leave `questions` unchanged and grow
`user_answers` by one answer per question per call. -/
theorem attempt_quiz_iterate (w : Nat → String) :
    ∀ (m : Nat) (s : QuizState),
      ((fun st => attempt_quiz st w)^[m] s).user_answers.length =
        s.user_answers.length + m * s.questions.length ∧
      ((fun st => attempt_quiz st w)^[m] s).questions = s.questions := by
  intro m
  induction m with
  | zero => intro s; simp
  | succ m ih =>
    intro s
    rw [Function.iterate_succ_apply]
    obtain ⟨h1, h2⟩ := ih (attempt_quiz s w)
    refine ⟨?_, h2⟩
    rw [h1]
    simp only [attempt_quiz, List.length_append, List.length_map,
      List.length_range]
    ring

/-- C8 counterexample: on a one-question session, two `attempt_quiz` calls with
the same widget values leave two (duplicated) entries in `user_answers`, not
one per question — the method appends on every invocation. -/
theorem attempt_quiz_idempotence_counterexample :
    (attempt_quiz (attempt_quiz
        { questions := [mcqRecord mcqParis], user_answers := [], results := [] }
        (fun _ => "Paris")) (fun _ => "Paris")).user_answers =
      ["Paris", "Paris"] ∧
    ({ questions := [mcqRecord mcqParis], user_answers := [],
       results := [] } : QuizState).questions.length = 1 := by
  exact ⟨rfl, rfl⟩

/-- C8 amended: each `attempt_quiz` call appends exactly one answer per
question, in question order, and leaves the question list unchanged; the method
is not idempotent: after `m` repeated calls with the same widget values,
`user_answers` has grown by `m * len(questions)` entries. -/
theorem attempt_quiz_appends (s : QuizState) (w : Nat → String) (m : Nat) :
    (attempt_quiz s w).user_answers =
      s.user_answers ++ (List.range s.questions.length).map w ∧
    (attempt_quiz s w).questions = s.questions ∧
    ((fun st => attempt_quiz st w)^[m] s).user_answers.length =
      s.user_answers.length + m * s.questions.length :=
  ⟨rfl, rfl, (attempt_quiz_iterate w m s).1⟩

/-! ## C9: save_to_csv -/

/-- C9: with empty results `save_to_csv` returns `None` and writes no file;
with non-empty results it writes exactly one file named
`<prefix>_<YYYYMMDD_HHMMSS>.csv` under the results directory and returns its
path, or returns `None` on an I/O error during the write. -/
theorem save_to_csv_spec (s : QuizState) (pfx : String) (now : DateTime)
    (writeOk : Bool) :
    (s.results = [] → save_to_csv s pfx now writeOk = (none, [])) ∧
    (s.results ≠ [] → writeOk = true →
      save_to_csv s pfx now writeOk =
        (some ("results/" ++ (pfx ++ "_" ++ fmtTimestamp now ++ ".csv")),
         ["results/" ++ (pfx ++ "_" ++ fmtTimestamp now ++ ".csv")])) ∧
    (s.results ≠ [] → writeOk = false →
      save_to_csv s pfx now writeOk = (none, [])) := by
  refine ⟨?_, ?_, ?_⟩
  · intro h
    simp [save_to_csv, h]
  · intro h hw
    subst hw
    simp [save_to_csv, h]
  · intro h hw
    subst hw
    simp [save_to_csv, h]

/-- A completed one-question session with one result, for the C9 witness. -/
def sessionSaved : QuizState :=
  { questions := [mcqRecord mcqParis], user_answers := ["Paris"],
    results := [{ question_number := 1, question := "Capital of France?",
                  question_type := "MCQ", user_answer := "Paris",
                  correct_answer := "Paris", is_correct := true,
                  options := ["Paris", "Rome", "Berlin", "Madrid"] }] }

/-- Witness for C9: a successful save from a non-empty session and a refused
save from an empty one. -/
theorem save_to_csv_spec_witness :
    save_to_csv sessionSaved "quiz_results" (DateTime.mk 2026 10 12 9 30 5)
        true =
      (some ("results/" ++ ("quiz_results" ++ "_" ++
          fmtTimestamp (DateTime.mk 2026 10 12 9 30 5) ++ ".csv")),
       ["results/" ++ ("quiz_results" ++ "_" ++
          fmtTimestamp (DateTime.mk 2026 10 12 9 30 5) ++ ".csv")]) ∧
    save_to_csv { sessionSaved with results := [] } "quiz_results"
        (DateTime.mk 2026 10 12 9 30 5) true = (none, []) :=
  ⟨(save_to_csv_spec sessionSaved "quiz_results"
      (DateTime.mk 2026 10 12 9 30 5) true).2.1 (by decide) rfl,
   (save_to_csv_spec { sessionSaved with results := [] } "quiz_results"
      (DateTime.mk 2026 10 12 9 30 5) true).1 rfl⟩
